import Mathlib

/-!
# Verification of the GuardTime client SDK timestamp core (node-guardtime / libgt-0.3.12)

A shallow embedding of the verification-relevant parts of `gt_timestamp.c` and
`base32.c`, together with theorems settling the specification claims about

* the hash-chain step wire layout and fold direction,
* the location decoder (`extractLocation`, `checkName`, `collectBits`),
* the verification orchestrator (`GTTimestamp_verify`, `createVerificationInfo`),
* the extension engine (`GTTimestamp_createExtendedTimestamp`),
* the base32 codec (`GT_base32Encode`, `GT_base32Decode`).

Machine integers are modelled as `Nat`/`Int` with explicit reductions modulo
`2^32` / `2^64` where C unsigned arithmetic can wrap.  Byte strings are
`List Nat` (each element an octet value).  Fallible C functions returning
`GT_*` status codes become `Except`-valued functions; external collaborators
(OpenSSL ASN.1/CMS, crypto digests, the missing `gt_internal.c`/`hashchain.c`
translation units) enter as explicit parameters or environments.
-/

namespace GT

/-! ## Status codes (enum GTStatusCode, gt_base.h) -/

def GT_OK : Nat := 0x00000000
def GT_EARLIER : Nat := 0x00000001
def GT_NOT_EARLIER : Nat := 0x00000002
def GT_EXTENDED : Nat := 0x00000003
def GT_NOT_EXTENDED : Nat := 0x00000004
def GT_INVALID_ARGUMENT : Nat := 0x00000100
def GT_INVALID_FORMAT : Nat := 0x00000101
def GT_UNTRUSTED_HASH_ALGORITHM : Nat := 0x00000102
def GT_UNTRUSTED_SIGNATURE_ALGORITHM : Nat := 0x00000103
def GT_INVALID_LINKING_INFO : Nat := 0x00000104
def GT_UNSUPPORTED_FORMAT : Nat := 0x00000105
def GT_DIFFERENT_HASH_ALGORITHMS : Nat := 0x00000106
def GT_WRONG_DOCUMENT : Nat := 0x00000200
def GT_WRONG_SIZE_OF_HISTORY : Nat := 0x00000201
def GT_REQUEST_TIME_MISMATCH : Nat := 0x00000202
def GT_INVALID_LENGTH_BYTES : Nat := 0x00000203
def GT_INVALID_AGGREGATION : Nat := 0x00000204
def GT_INVALID_SIGNATURE : Nat := 0x00000205
def GT_WRONG_SIGNED_DATA : Nat := 0x00000206
def GT_TRUST_POINT_NOT_FOUND : Nat := 0x00000207
def GT_INVALID_TRUST_POINT : Nat := 0x00000208
def GT_CANNOT_EXTEND : Nat := 0x00000209
def GT_ALREADY_EXTENDED : Nat := 0x0000020a
def GT_KEY_NOT_PUBLISHED : Nat := 0x0000020b
def GT_CERT_TICKET_TOO_OLD : Nat := 0x0000020c
def GT_CERT_NOT_TRUSTED : Nat := 0x0000020d
def GT_OUT_OF_MEMORY : Nat := 0x00000300
def GT_IO_ERROR : Nat := 0x00000301
def GT_TIME_OVERFLOW : Nat := 0x00000302
def GT_CRYPTO_FAILURE : Nat := 0x00000303
def GT_PKI_SYSTEM_FAILURE : Nat := 0x00000304
def GT_UNKNOWN_ERROR : Nat := 0x00000305

/-! ## Verification error / status bit flags (gt_base.h) -/

def GT_NO_FAILURES : Nat := 0
def GT_SYNTACTIC_CHECK_FAILURE : Nat := 1
def GT_HASHCHAIN_VERIFICATION_FAILURE : Nat := 2
def GT_PUBLIC_KEY_SIGNATURE_FAILURE : Nat := 16
def GT_WRONG_DOCUMENT_FAILURE : Nat := 128
def GT_PUBLIC_KEY_SIGNATURE_PRESENT : Nat := 1
def GT_PUBLICATION_REFERENCE_PRESENT : Nat := 2
def GT_DOCUMENT_HASH_CHECKED : Nat := 16

/-! ## Hash algorithm ids (enum GTHashAlgorithm, gt_base.h) -/

def GT_HASHALG_SHA1 : Nat := 0
def GT_HASHALG_SHA256 : Nat := 1
def GT_HASHALG_RIPEMD160 : Nat := 2
def GT_HASHALG_SHA224 : Nat := 3
def GT_HASHALG_SHA384 : Nat := 4
def GT_HASHALG_SHA512 : Nat := 5

/-- Modelled from the spec: `GT_getHashSize` is implemented in the
`gt_internal.c` translation unit, which is not among the source files; the
spec fixes the wire-stable digest sizes as SHA-1=20, SHA-256=32,
RIPEMD-160=20, SHA-224=28, SHA-384=48, SHA-512=64, and the decoder treats a
zero result as an unknown algorithm. -/
def GT_getHashSize (alg : Nat) : Nat :=
  if alg = GT_HASHALG_SHA1 then 20
  else if alg = GT_HASHALG_SHA256 then 32
  else if alg = GT_HASHALG_RIPEMD160 then 20
  else if alg = GT_HASHALG_SHA224 then 28
  else if alg = GT_HASHALG_SHA384 then 48
  else if alg = GT_HASHALG_SHA512 then 64
  else 0

/-! ## Base32 codec (base32.c)

Byte strings are `List Nat`; characters are ASCII codes.  The decode buffer is
the zero-initialised allocation of `base32_len * 5 / 8 + 2` bytes made by
`GT_base32Decode`; `List.set` models the in-bounds `|=` writes of `addBits`. -/

/-- `base32EncodeTable` from base32.c: the ASCII codes of
`ABCDEFGHIJKLMNOPQRSTUVWXYZ234567`. -/
def base32EncodeTable : List Nat :=
  [65, 66, 67, 68, 69, 70, 71, 72, 73, 74, 75, 76, 77, 78, 79, 80,
   81, 82, 83, 84, 85, 86, 87, 88, 89, 90, 50, 51, 52, 53, 54, 55]

/-- `base32NumDecTable` from base32.c.  The C initialiser writes `-1` into an
`unsigned char` array, so the sentinel entries hold the value 255. -/
def base32NumDecTable : List Nat :=
  [255, 255, 26, 27, 28, 29, 30, 31, 255, 255]

/-- `makeMask` from base32.c: `bit_count` iterations of `ret = ret << 1 | 1`. -/
def makeMask : Nat → Nat
  | 0 => 0
  | n + 1 => makeMask n <<< 1 ||| 1

/-- `addBits` from base32.c.  `bits` is the C `int` argument; the guard
rejects only genuinely negative values.  Returns the updated buffer and the
updated `*bits_decoded`. -/
def addBits (buf : List Nat) (bits_decoded : Nat) (bits : Int) : List Nat × Nat :=
  if bits < 0 then (buf, bits_decoded)
  else
    let b := bits.toNat
    let bits_to_first_byte := min (8 - bits_decoded % 8) 5
    let shift_count := 8 - bits_to_first_byte - bits_decoded % 8
    let buf_idx := bits_decoded / 8
    let selected_bits :=
      (b &&& (makeMask bits_to_first_byte <<< (5 - bits_to_first_byte))) >>>
        (5 - bits_to_first_byte)
    let buf1 := buf.set buf_idx (buf.getD buf_idx 0 ||| (selected_bits <<< shift_count))
    let bd1 := bits_decoded + bits_to_first_byte
    if bits_to_first_byte < 5 then
      let bits_to_second_byte := 5 - bits_to_first_byte
      let shift2 := 8 - bits_to_second_byte
      let sel2 :=
        b &&& ((makeMask bits_to_second_byte <<< (5 - bits_to_second_byte)) >>>
          (5 - bits_to_second_byte))
      (buf1.set (buf_idx + 1) (buf1.getD (buf_idx + 1) 0 ||| (sel2 <<< shift2)),
       bd1 + bits_to_second_byte)
    else (buf1, bd1)

/-- The character loop of `GT_base32Decode`: `=` (61) breaks, decimal digits
(48–57) go through `base32NumDecTable`, ASCII letters decode as
`toupper(c) - 65`, everything else is skipped. -/
def base32DecodeLoop : List Nat → List Nat → Nat → List Nat × Nat
  | [], buf, bd => (buf, bd)
  | c :: rest, buf, bd =>
    if c = 61 then (buf, bd)
    else if 48 ≤ c ∧ c ≤ 57 then
      let p := addBits buf bd (Int.ofNat (base32NumDecTable.getD (c - 48) 0))
      base32DecodeLoop rest p.1 p.2
    else if (65 ≤ c ∧ c ≤ 90) ∨ (97 ≤ c ∧ c ≤ 122) then
      let p := addBits buf bd (Int.ofNat ((if 97 ≤ c then c - 32 else c) - 65))
      base32DecodeLoop rest p.1 p.2
    else base32DecodeLoop rest buf bd

/-- `GT_base32Decode` from base32.c: zero-filled buffer of
`base32_len * 5 / 8 + 2` bytes, the character loop, and the final
`*ret_len = bits_decoded / 8` truncation. -/
def GT_base32Decode (base32 : List Nat) : List Nat × Nat :=
  let r := base32DecodeLoop base32 (List.replicate (base32.length * 5 / 8 + 2) 0) 0
  (r.1, r.2 / 8)

/-- `readNextBits` from base32.c; `none` models the `-1` EOF return. -/
def readNextBits (data : List Nat) (bits_read : Nat) : Option Nat :=
  let byte_to_read := bits_read / 8
  if data.length ≤ byte_to_read then none
  else
    let first_byte_bits := min (8 - (bits_read - byte_to_read * 8)) 5
    let shift_count := 8 - bits_read % 8 - first_byte_bits
    let r := (data.getD byte_to_read 0 &&& (makeMask first_byte_bits <<< shift_count)) >>>
      shift_count
    if first_byte_bits < 5 then
      let second_byte_bits := 5 - first_byte_bits
      let r2 := r <<< second_byte_bits
      let shift2 := 8 - second_byte_bits
      if byte_to_read + 1 < data.length then
        some (r2 ||| ((data.getD (byte_to_read + 1) 0 &&&
          (makeMask second_byte_bits <<< shift2)) >>> shift2))
      else some r2
    else some r

/-- The buffer size `GT_base32Encode` allocates: `(data_len*8+39)/40*8`
characters, plus dash room only when `group_len > 0`, plus one for the
terminating NUL. -/
def base32BufLen (data_len group_len : Nat) : Nat :=
  let b := (data_len * 8 + 39) / 40 * 8
  (if 0 < group_len then b + (b - 1) / group_len else b) + 1

/-- The emission loop of `GT_base32Encode`.  After each emitted character the
source inserts a dash when `ret_len % (group_len + 1) == group_len` and more
data bits remain; `acc.length` tracks `ret_len`.  Fuel only bounds the
iteration count; `GT_base32Encode` supplies enough for every input. -/
def base32EncodeLoop (data : List Nat) (group_len : Nat) :
    Nat → Nat → List Nat → List Nat × Nat
  | 0, bits_read, acc => (acc, bits_read)
  | fuel + 1, bits_read, acc =>
    match readNextBits data bits_read with
    | none => (acc, bits_read)
    | some next_bits =>
      let acc1 := acc ++ [base32EncodeTable.getD next_bits 0]
      let acc2 :=
        if acc1.length % (group_len + 1) = group_len ∧ bits_read + 5 < data.length * 8
        then acc1 ++ [45] else acc1
      base32EncodeLoop data group_len fuel (bits_read + 5) acc2

/-- The padding loop of `GT_base32Encode`: emit `=` (61) until `bits_read`
is a multiple of 40, inserting dashes under the same grouping condition
except at the final padding position (`bits_read % 40 == 35`). -/
def base32PadLoop (group_len : Nat) : Nat → Nat → List Nat → List Nat
  | 0, _, acc => acc
  | fuel + 1, bits_read, acc =>
    if bits_read % 40 = 0 then acc
    else
      let acc1 := acc ++ [61]
      let acc2 :=
        if acc1.length % (group_len + 1) = group_len ∧ bits_read % 40 ≠ 35
        then acc1 ++ [45] else acc1
      base32PadLoop group_len fuel (bits_read + 5) acc2

/-- `GT_base32Encode` from base32.c (the characters written, NUL excluded).
The main loop runs at most `⌈data_len*8/5⌉ ≤ 2*data_len + 2` times and the
padding loop at most 8 times, so the supplied fuel is never exhausted. -/
def GT_base32Encode (data : List Nat) (group_len : Nat) : List Nat :=
  let r := base32EncodeLoop data group_len (data.length * 2 + 2) 0 []
  base32PadLoop group_len 8 r.2 r.1

/-! ## Location decoder (gt_timestamp.c: collectBits, checkName, extractLocation)

The chain is a `List Nat` of octets.  The local C arrays `steps[256]` and
`bits[256]` are modelled as functions `Nat → List Nat` and `Nat → Nat`
together with the shared counter `num_bits`; `steps i` holds the byte suffix
of the chain starting at the recorded step pointer, exactly as the C stores
a pointer into the chain buffer. -/

/-- `collectBits` from gt_timestamp.c: pops `num` bits off the top of the
bit stack (`res <<= 1; res |= buf[--*len]`), stopping early when the stack
empties.  `res` is a C `unsigned int`, so the shift wraps modulo `2^32`.
Returns the collected value and the updated `*len`. -/
def collectBitsGo (bits : Nat → Nat) : Nat → Nat → Nat → Nat × Nat
  | res, _, 0 => (res, 0)
  | res, 0, _ => (res, 0)
  | res, num + 1, len + 1 =>
    collectBitsGo bits (((res <<< 1) % 4294967296) ||| bits len) num len

/-- Entry point matching the C signature `collectBits(buf, len, num)`. -/
def collectBits (bits : Nat → Nat) (len num : Nat) : Nat × Nat :=
  if len = 0 then (0, len) else collectBitsGo bits 0 num len

/-- The body of the padding scan of `checkName`: starting at sibling offset
`i`, the zero check runs once per remaining loop iteration. -/
def checkNamePadGo (step : List Nat) : Nat → Nat → Bool
  | _, 0 => true
  | i, k + 1 =>
    if step.getD (3 + i) 0 ≠ 0 then false
    else checkNamePadGo step (i + 1) k

/-- The padding scan of `checkName`: `for (i = 2 + len; i < hash_len; ++i)`
requires every remaining sibling byte to be zero (`hash_len - i`
iterations). -/
def checkNamePad (step : List Nat) (i : Nat) : Bool :=
  checkNamePadGo step i (GT_getHashSize GT_HASHALG_SHA224 - i)

/-- `checkName` from gt_timestamp.c.  Inspects `steps[*len - 1]` and, when
the step embeds a name tag (`direction == 1`, SHA-224 sibling, leading tag
byte 0, valid length byte, zero padding), returns the decremented length
and the name bytes `step[5 .. 5+len)`; otherwise leaves the length alone
and yields no name. -/
def checkName (steps : Nat → List Nat) (len : Nat) : Nat × Option (List Nat) :=
  if len = 0 then (len, none)
  else
    let step := steps (len - 1)
    if step.getD 1 0 ≠ 1 then (len, none)
    else if step.getD 2 0 ≠ GT_HASHALG_SHA224 then (len, none)
    else if step.getD 3 0 ≠ 0 then (len, none)
    else if GT_getHashSize GT_HASHALG_SHA224 < step.getD 4 0 + 2 then (len, none)
    else if checkNamePad step (2 + step.getD 4 0) then
      (len - 1, some ((step.drop 5).take (step.getD 4 0)))
    else (len, none)

/-- One wire step as scanned by `extractLocation`: the C keeps a pointer to
the step base (`bytes`), reads the direction byte at offset 1, the sibling
hash algorithm at offset 2, and the level byte after the sibling digest. -/
structure HashStep where
  bytes : List Nat
  direction : Nat
  sibAlg : Nat
  level : Nat
  hashBit : Nat
deriving Repr, DecidableEq

/-- The step scan of `extractLocation`'s main loop, with the source's bound
checks: the direction byte must exist and be 0 or 1 (offset 1), the sibling
algorithm byte (offset 2) must have a known digest size, and the level byte
(offset `3 + digest size`) must be inside the chain.  On success the next
step starts `4 + digest size` bytes further. -/
def parseStep (remaining : List Nat) : Option (HashStep × List Nat) :=
  if remaining.length ≤ 1 then none
  else
    let d := remaining.getD 1 0
    if d ≠ 0 ∧ d ≠ 1 then none
    else if remaining.length ≤ 2 then none
    else
      let alg := remaining.getD 2 0
      let hs := GT_getHashSize alg
      if hs = 0 then none
      else if remaining.length ≤ 3 + hs then none
      else
        some ({ bytes := remaining, direction := d, sibAlg := alg,
                level := remaining.getD (3 + hs) 0, hashBit := 1 - d },
              remaining.drop (4 + hs))

/-- The architectural constants of `extractLocation` (gt_timestamp.c). -/
def hasher : Nat := 80
def gdepth_top : Nat := 60
def gdepth_national : Nat := 39
def gdepth_state : Nat := 19
def slot_bits_top : Nat := 3
def ab_bits_top : Nat := 3
def slot_bits_national : Nat := 2
def ab_bits_national : Nat := 3
def slot_bits_state : Nat := 2
def ab_bits_state : Nat := 2

/-- `top_level = gdepth_top + (slot_bits_top + ab_bits_top) - 2`. -/
def top_level : Nat := gdepth_top + (slot_bits_top + ab_bits_top) - 2

/-- `national_level = gdepth_national + (slot_bits_national + ab_bits_national) - 2`. -/
def national_level : Nat := gdepth_national + (slot_bits_national + ab_bits_national) - 2

/-- `state_level = gdepth_state + (slot_bits_state + ab_bits_state) - 2`. -/
def state_level : Nat := gdepth_state + (slot_bits_state + ab_bits_state) - 2

/-- A region transition of `extractLocation` fires when the current step's
level exceeds the threshold while the previous step's level (initially −1)
did not: `hash_level > T && last_level <= T`. -/
def levelCrossing (threshold hash_level : Nat) (last_level : Int) : Bool :=
  decide ((threshold : Int) < (hash_level : Int)) && decide (last_level ≤ (threshold : Int))

/-- The `struct LocationInfo` accumulator of `extractLocation`; names are
kept as raw byte slices (`none` models the untouched NULL/0 fields). -/
structure LocationInfo where
  hasher : Nat := 0
  national_cluster : Nat := 0
  national_machine : Nat := 0
  national_slot : Nat := 0
  national_name : Option (List Nat) := none
  state_cluster : Nat := 0
  state_machine : Nat := 0
  state_slot : Nat := 0
  state_name : Option (List Nat) := none
  local_cluster : Nat := 0
  local_machine : Nat := 0
  local_slot : Nat := 0
  local_name : Option (List Nat) := none
  client_id : Nat := 0
  client_name : Option (List Nat) := none
deriving Repr, DecidableEq

/-- The packing of `location_id`: `tmp_id` is a `GT_UInt64`, so every
left-shift reduces modulo `2^64`. -/
def locationId (loc : LocationInfo) : Nat :=
  let t0 : Nat := 0
  let t1 := t0 ||| loc.national_cluster
  let t2 := (t1 <<< 16) % 18446744073709551616
  let t3 := t2 ||| loc.state_cluster
  let t4 := (t3 <<< 16) % 18446744073709551616
  let t5 := t4 ||| loc.local_cluster
  let t6 := (t5 <<< 16) % 18446744073709551616
  t6 ||| loc.client_id

/-- The main loop of `extractLocation`.  Each iteration records the step
pointer at `steps[num_bits]`, scans one step, fires the hasher / top /
national / state / client-name transitions in source order, then pushes the
step's `1 - direction` bit.  The fuel only bounds the iteration count;
`extractLocation` passes `chain.length + 1`, which a successful iteration
(consuming at least 24 chain bytes) can never exhaust, and exhaustion maps
to the same `GT_INVALID_LINKING_INFO` every bound-check failure yields. -/
def extLoop (steps : Nat → List Nat) (bits : Nat → Nat) (num_bits : Nat)
    (last_level : Int) (loc : LocationInfo) (remaining : List Nat) :
    Nat → Except Nat LocationInfo
  | 0 => .error GT_INVALID_LINKING_INFO
  | fuel + 1 =>
    match parseStep remaining with
    | none => .error GT_INVALID_LINKING_INFO
    | some (st, rest) =>
      let steps1 := fun i => if i = num_bits then st.bytes else steps i
      if levelCrossing hasher st.level last_level then
        let loc1 := { loc with
          hasher := if st.level = 0xff then 1 + st.hashBit else st.level - hasher }
        let r := collectBits bits num_bits num_bits
        .ok { loc1 with national_cluster := r.1 }
      else
        let s1 :=
          if levelCrossing top_level st.level last_level then
            let r1 := collectBits bits num_bits ab_bits_top
            let r2 := collectBits bits r1.2 slot_bits_top
            let c := checkName steps1 r2.2
            let r3 := collectBits bits c.1 c.1
            ({ loc with
                national_machine := r1.1,
                national_slot := r2.1,
                national_name := c.2.or loc.national_name,
                state_cluster := r3.1 }, r3.2)
          else (loc, num_bits)
        let s2 :=
          if levelCrossing national_level st.level last_level then
            let r1 := collectBits bits s1.2 ab_bits_national
            let r2 := collectBits bits r1.2 slot_bits_national
            let c := checkName steps1 r2.2
            let r3 := collectBits bits c.1 c.1
            ({ s1.1 with
                state_machine := r1.1,
                state_slot := r2.1,
                state_name := c.2.or s1.1.state_name,
                local_cluster := r3.1 }, r3.2)
          else s1
        let s3 :=
          if levelCrossing state_level st.level last_level then
            let r1 := collectBits bits s2.2 ab_bits_state
            let r2 := collectBits bits r1.2 slot_bits_state
            let c := checkName steps1 r2.2
            let r3 := collectBits bits c.1 c.1
            ({ s2.1 with
                local_machine := r1.1,
                local_slot := r2.1,
                local_name := c.2.or s2.1.local_name,
                client_id := r3.1 }, r3.2)
          else s2
        let s4 :=
          if levelCrossing 1 st.level last_level then
            let c := checkName steps1 s3.2
            ({ s3.1 with client_name := c.2.or s3.1.client_name }, c.1)
          else s3
        let bits1 := fun i => if i = s4.2 then st.hashBit else bits i
        extLoop steps1 bits1 (s4.2 + 1) (st.level : Int) s4.1 rest fuel

/-- `extractLocation` from gt_timestamp.c: run the scan loop from the empty
stacks with `last_level = -1` and pack the resulting location id. -/
def extractLocation (hash_chain : List Nat) : Except Nat (Nat × LocationInfo) :=
  match extLoop (fun _ => []) (fun _ => 0) 0 (-1) {} hash_chain (hash_chain.length + 1) with
  | .error e => .error e
  | .ok loc => .ok (locationId loc, loc)

/-- The location decoder exactly as the claim words it: identical to
`extLoop` except that the local-to-state threshold is the claimed
`state_level = 22` instead of the source's
`gdepth_state + (slot_bits_state + ab_bits_state) - 2 = 21`.  Used only to
exhibit an input on which the claimed decoder disagrees with the source. -/
def extLoopStateLevel22 (steps : Nat → List Nat) (bits : Nat → Nat) (num_bits : Nat)
    (last_level : Int) (loc : LocationInfo) (remaining : List Nat) :
    Nat → Except Nat LocationInfo
  | 0 => .error GT_INVALID_LINKING_INFO
  | fuel + 1 =>
    match parseStep remaining with
    | none => .error GT_INVALID_LINKING_INFO
    | some (st, rest) =>
      let steps1 := fun i => if i = num_bits then st.bytes else steps i
      if levelCrossing hasher st.level last_level then
        let loc1 := { loc with
          hasher := if st.level = 0xff then 1 + st.hashBit else st.level - hasher }
        let r := collectBits bits num_bits num_bits
        .ok { loc1 with national_cluster := r.1 }
      else
        let s1 :=
          if levelCrossing top_level st.level last_level then
            let r1 := collectBits bits num_bits ab_bits_top
            let r2 := collectBits bits r1.2 slot_bits_top
            let c := checkName steps1 r2.2
            let r3 := collectBits bits c.1 c.1
            ({ loc with
                national_machine := r1.1,
                national_slot := r2.1,
                national_name := c.2.or loc.national_name,
                state_cluster := r3.1 }, r3.2)
          else (loc, num_bits)
        let s2 :=
          if levelCrossing national_level st.level last_level then
            let r1 := collectBits bits s1.2 ab_bits_national
            let r2 := collectBits bits r1.2 slot_bits_national
            let c := checkName steps1 r2.2
            let r3 := collectBits bits c.1 c.1
            ({ s1.1 with
                state_machine := r1.1,
                state_slot := r2.1,
                state_name := c.2.or s1.1.state_name,
                local_cluster := r3.1 }, r3.2)
          else s1
        let s3 :=
          if levelCrossing 22 st.level last_level then
            let r1 := collectBits bits s2.2 ab_bits_state
            let r2 := collectBits bits r1.2 slot_bits_state
            let c := checkName steps1 r2.2
            let r3 := collectBits bits c.1 c.1
            ({ s2.1 with
                local_machine := r1.1,
                local_slot := r2.1,
                local_name := c.2.or s2.1.local_name,
                client_id := r3.1 }, r3.2)
          else s2
        let s4 :=
          if levelCrossing 1 st.level last_level then
            let c := checkName steps1 s3.2
            ({ s3.1 with client_name := c.2.or s3.1.client_name }, c.1)
          else s3
        let bits1 := fun i => if i = s4.2 then st.hashBit else bits i
        extLoopStateLevel22 steps1 bits1 (s4.2 + 1) (st.level : Int) s4.1 rest fuel

/-- Entry point of the claim-worded decoder variant of
`extLoopStateLevel22`. -/
def extractLocationStateLevel22 (hash_chain : List Nat) : Except Nat (Nat × LocationInfo) :=
  match extLoopStateLevel22 (fun _ => []) (fun _ => 0) 0 (-1) {} hash_chain
      (hash_chain.length + 1) with
  | .error e => .error e
  | .ok loc => .ok (locationId loc, loc)

/-! ## Hash-chain fold (hashchain.c, not among the source files)

The fold implementation `GT_hashChainCalculate` lives in the `hashchain.c`
translation unit, which is not among the source files; only its callers
(gt_timestamp.c) and the step documentation (`GTHashEntry`,
gt_base.h lines 249–277) are.  The definitions below are therefore modelled,
with the concatenation order taken from the in-source `GTHashEntry`
documentation: direction 0 places the sibling hash on the LEFT of the
previous step's hash, direction 1 places it on the RIGHT (gt_base.h:
"If direction is 0, then sibling_hash_value is concatenated to the left of
the hash of the data from the previous step; if direction is 1 ... to the
right"; likewise gt_timestamp.c `checkName`: `step[1] != 1` means "Sibling
not on the right").  The crypto digest enters as the parameter `hash`. -/

/-- Modelled from the spec: the per-step concatenation of the hash-chain
fold, whose implementation (`hashchain.c`) is missing from the sources.
The order follows the `GTHashEntry` documentation in gt_base.h (in the
sources): direction 0 puts the sibling imprint on the left of the previous
imprint, direction 1 on the right. -/
def gtHashStepConcat (direction : Nat) (prev sibling : List Nat) : List Nat :=
  if direction = 0 then sibling ++ prev else prev ++ sibling

/-- The per-step concatenation exactly as the claim words it: the previous
imprint on the left when `direction = 0` and on the right when
`direction = 1`.  Used only to compare against `gtHashStepConcat`. -/
def gtHashStepConcatClaim (direction : Nat) (prev sibling : List Nat) : List Nat :=
  if direction = 0 then prev ++ sibling else sibling ++ prev

/-- Modelled from the spec: `GT_hashChainCalculate` (hashchain.c, missing
from the sources) folds the chain step by step over the wire layout scanned
by `parseStep`; each step hashes the concatenation of the previous imprint
and the sibling imprint (`sibling algorithm byte :: digest`) under the
step's own algorithm byte, producing the imprint
`step algorithm :: digest`.  `hash alg data` abstracts the crypto digest. -/
def GT_hashChainCalculate (hash : Nat → List Nat → List Nat) :
    List Nat → List Nat → Nat → Except Nat (List Nat)
  | _, _, 0 => .error GT_UNKNOWN_ERROR
  | [], prev, _ + 1 => .ok prev
  | chain, prev, fuel + 1 =>
    match parseStep chain with
    | none => .error GT_INVALID_LINKING_INFO
    | some (st, rest) =>
      let sibling := st.sibAlg :: ((st.bytes.drop 3).take (GT_getHashSize st.sibAlg))
      let stepAlg := st.bytes.getD 0 0
      GT_hashChainCalculate hash rest
        (stepAlg :: hash stepAlg (gtHashStepConcat st.direction prev sibling)) fuel

/-- The fold exactly as the claim words it: identical to
`GT_hashChainCalculate` but with the claimed concatenation order
`gtHashStepConcatClaim`. -/
def GT_hashChainCalculateClaim (hash : Nat → List Nat → List Nat) :
    List Nat → List Nat → Nat → Except Nat (List Nat)
  | _, _, 0 => .error GT_UNKNOWN_ERROR
  | [], prev, _ + 1 => .ok prev
  | chain, prev, fuel + 1 =>
    match parseStep chain with
    | none => .error GT_INVALID_LINKING_INFO
    | some (st, rest) =>
      let sibling := st.sibAlg :: ((st.bytes.drop 3).take (GT_getHashSize st.sibAlg))
      let stepAlg := st.bytes.getD 0 0
      GT_hashChainCalculateClaim hash rest
        (stepAlg :: hash stepAlg (gtHashStepConcatClaim st.direction prev sibling)) fuel

/-! ## Verification orchestrator (gt_timestamp.c: createVerificationInfo,
GTTimestamp_verify)

The sub-checks that reach into OpenSSL (ASN.1 re-encoding, digests, the PKI
signature) and into the missing `gt_internal.c` (`GT_shape`,
`GT_findHistoryIdentifier`) are abstracted as result codes carried by a
`VerifyEnv`; the control flow, the flag accumulation and the 32-bit
`time_t` overflow handling are translated from the source. -/

/-- The `(time_t) history_identifier` cast on a build whose `time_t` is a
signed 32-bit integer: interpret the low 32 bits as a two's-complement
value. -/
def timeT32 (hi : Nat) : Int :=
  let m := hi % 4294967296
  if m < 2147483648 then (m : Int) else (m : Int) - 4294967296

/-- The `(GT_UInt64)((time_t) history_identifier)` round-trip cast:
sign-extend the 32-bit value and reinterpret as an unsigned 64-bit value. -/
def timeT32RoundTrip (t : Int) : Nat :=
  ((t % 18446744073709551616 + 18446744073709551616) % 18446744073709551616).toNat

/-- The 32-bit `time_t` overflow test of `createVerificationInfo`:
`(time_t) history_identifier < 0 ||
 (GT_UInt64)((time_t) history_identifier) != history_identifier`. -/
def timeTOverflow32 (hi : Nat) : Bool :=
  decide (timeT32 hi < 0) || decide (timeT32RoundTrip (timeT32 hi) ≠ hi)

/-- The view of a decoded timestamp that `createVerificationInfo` and
`GTTimestamp_verify` consume: whether `time_signature->pkSignature` is
non-NULL, the element count of the optional `pubReference` stack, and the
octets of the location hash chain. -/
structure GTTimestampView where
  pkSignaturePresent : Bool
  pubReference : Option Nat
  location : List Nat
deriving Repr, DecidableEq

/-- Results of the external sub-calls of the verification path, in call
order: `addExplicitVerificationInfo`, the `GT_shape` +
`GT_findHistoryIdentifier` pair (`.ok` carries the recovered
`GT_HashDBIndex`), `setVerifiedPublicationSignatureInfo`,
`setVerifiedPKISignatureInfo`, `checkTimestampSyntax`, `checkHashChain`,
`PKCS7_cert_from_signer_info` (found or NULL) and
`checkPublicKeySignature`. -/
structure VerifyEnv where
  explicitRes : Nat
  historyIdRes : Except Nat Nat
  pubInfoRes : Nat
  pkiInfoRes : Nat
  syntaxRes : Nat
  chainRes : Nat
  certFound : Bool
  pkRes : Nat
deriving Repr

/-- The populated `GTVerificationInfo` (implicit block only; the explicit
block and the pretty-printed location name string are not needed by any
claim). -/
structure GTVerificationInfo where
  verification_errors : Nat
  verification_status : Nat
  registered_time : Nat
  location_id : Nat
deriving Repr, DecidableEq

/-- The tail of `createVerificationInfo` after the registration-time
recovery: location extraction (its `GT_INVALID_LINKING_INFO` downgraded to
the syntactic flag), then `setVerifiedPublicationSignatureInfo` or
`setVerifiedPKISignatureInfo` according to the
`GT_PUBLIC_KEY_SIGNATURE_PRESENT` status bit. -/
def createVerificationInfoTail (env : VerifyEnv) (ts : GTTimestampView)
    (errs0 status1 registered : Nat) : Except Nat GTVerificationInfo :=
  let lres := extractLocation ts.location
  let step2 : Except Nat (Nat × Nat) :=
    match lres with
    | .ok r => .ok (errs0, r.1)
    | .error e =>
      if e = GT_INVALID_LINKING_INFO then .ok (errs0 ||| GT_SYNTACTIC_CHECK_FAILURE, 0)
      else .error e
  match step2 with
  | .error e => .error e
  | .ok (errs1, lid) =>
    let r := if status1 &&& GT_PUBLIC_KEY_SIGNATURE_PRESENT = 0
             then env.pubInfoRes else env.pkiInfoRes
    if r ≠ GT_OK then .error r
    else .ok { verification_errors := errs1, verification_status := status1,
               registered_time := registered, location_id := lid }

/-- `createVerificationInfo` from gt_timestamp.c: build the info structure,
set the status-presence bits, recover the registration time from the
history-chain shape (downgrading `GT_INVALID_FORMAT`,
`GT_INVALID_LINKING_INFO` and `GT_UNSUPPORTED_FORMAT` — including the
32-bit `time_t` overflow, reported as `GT_INVALID_FORMAT` when
`sizeof_time_t < 8` — to the `GT_SYNTACTIC_CHECK_FAILURE` flag with
`registered_time = 0`), extract the location id (downgrading
`GT_INVALID_LINKING_INFO` the same way), and run the publication- or
PKI-signature info helper.  Any other sub-check failure aborts with that
code and no info. -/
def createVerificationInfo (env : VerifyEnv) (ts : GTTimestampView)
    (parse_data : Bool) (sizeof_time_t : Nat) : Except Nat GTVerificationInfo :=
  if parse_data ∧ env.explicitRes ≠ GT_OK then .error env.explicitRes
  else
    let status0 : Nat := if ts.pkSignaturePresent then GT_PUBLIC_KEY_SIGNATURE_PRESENT else 0
    let status1 : Nat := status0 |||
      (match ts.pubReference with
       | some n => if 0 < n then GT_PUBLICATION_REFERENCE_PRESENT else 0
       | none => 0)
    let hres : Except Nat Nat :=
      match env.historyIdRes with
      | .ok hi =>
        if sizeof_time_t < 8 ∧ timeTOverflow32 hi then .error GT_INVALID_FORMAT
        else .ok hi
      | .error e => .error e
    match hres with
    | .error e =>
      if e = GT_INVALID_FORMAT ∨ e = GT_INVALID_LINKING_INFO ∨ e = GT_UNSUPPORTED_FORMAT then
        createVerificationInfoTail env ts GT_SYNTACTIC_CHECK_FAILURE status1 0
      else .error e
    | .ok hi => createVerificationInfoTail env ts GT_NO_FAILURES status1 hi

/-- The case list of the `checkHashChain` switch in `GTTimestamp_verify`:
these result codes are downgraded to the
`GT_HASHCHAIN_VERIFICATION_FAILURE` flag. -/
def checkHashChainFailureCode (r : Nat) : Bool :=
  r == GT_INVALID_FORMAT || r == GT_UNTRUSTED_HASH_ALGORITHM ||
  r == GT_WRONG_SIGNED_DATA || r == GT_INVALID_AGGREGATION

/-- The case list of the public-key-signature switch in
`GTTimestamp_verify`: these result codes are downgraded to the
`GT_PUBLIC_KEY_SIGNATURE_FAILURE` flag. -/
def checkPublicKeyFailureCode (r : Nat) : Bool :=
  r == GT_INVALID_FORMAT || r == GT_UNTRUSTED_HASH_ALGORITHM ||
  r == GT_UNTRUSTED_SIGNATURE_ALGORITHM || r == GT_WRONG_SIGNED_DATA ||
  r == GT_INVALID_SIGNATURE

/-- The effective public-key check result: `GT_INVALID_FORMAT` when the
signer certificate could not be fetched ("should not happen but it's
better to be paranoid here"), the `checkPublicKeySignature` result
otherwise. -/
def pkEffective (env : VerifyEnv) : Nat :=
  if env.certFound then env.pkRes else GT_INVALID_FORMAT

/-- `GTTimestamp_verify` from gt_timestamp.c: create the verification info,
then run the syntactic check, the hash-chain check and (when a PKI
signature is present) the public-key signature check, accumulating one
failure flag per failed sub-check; result codes outside each switch's
failure list abort with that code and no info. -/
def GTTimestamp_verify (env : VerifyEnv) (ts : GTTimestampView)
    (parse_data : Bool) (sizeof_time_t : Nat) : Except Nat GTVerificationInfo :=
  match createVerificationInfo env ts parse_data sizeof_time_t with
  | .error e => .error e
  | .ok info =>
    let info1 :=
      if env.syntaxRes ≠ GT_OK then
        { info with verification_errors := info.verification_errors ||| GT_SYNTACTIC_CHECK_FAILURE }
      else info
    let chainStep : Except Nat GTVerificationInfo :=
      if env.chainRes = GT_OK then .ok info1
      else if checkHashChainFailureCode env.chainRes then
        .ok { info1 with verification_errors :=
          info1.verification_errors ||| GT_HASHCHAIN_VERIFICATION_FAILURE }
      else .error env.chainRes
    match chainStep with
    | .error e => .error e
    | .ok info2 =>
      if ts.pkSignaturePresent then
        let r := pkEffective env
        if r = GT_OK then .ok info2
        else if checkPublicKeyFailureCode r then
          .ok { info2 with verification_errors :=
            info2.verification_errors ||| GT_PUBLIC_KEY_SIGNATURE_FAILURE }
        else .error r
      else .ok info2

/-! ## Extension engine (gt_timestamp.c: GTTimestamp_createExtendedTimestamp)

The CMS token is modelled by the three components the splice touches: an
opaque remainder (`body`), the signer-info `enc_digest` octets, and the
optional certificate bag.  External calls (response decoding, status
analysis, the consistency check, `GT_extendTimeSignature`, allocations,
`ASN1_item_pack`, the projection refreshes) are carried by an
`ExtendEnv`. -/

/-- The CMS `PKCS7` token as seen by the splice. -/
structure PKCS7M where
  body : Nat
  enc_digest : Nat
  certs : Option Nat
deriving Repr, DecidableEq

/-- `PKCS7_dup`: a structural copy of the token value. -/
def PKCS7_dup (t : PKCS7M) : PKCS7M := t

/-- A decoded timestamp: the token plus its two cached projections. -/
structure GTTimestampM where
  token : PKCS7M
  tst_info : Nat
  time_signature : Nat
deriving Repr, DecidableEq

/-- A decoded `GTCertToken`: its version and the result of
`GT_checkUnhandledExtensions` on its extensions. -/
structure GTCertTokenM where
  version : Int
  extRes : Nat
deriving Repr, DecidableEq

/-- A decoded `GTCertTokenResponse`: the `GT_analyseResponseStatus` result
for its status and the optional `certToken`. -/
structure GTCertTokenResponseM where
  statusRes : Nat
  certToken : Option GTCertTokenM
deriving Repr, DecidableEq

/-- Outcomes of the external calls of
`GTTimestamp_createExtendedTimestamp`, in call order. -/
structure ExtendEnv where
  d2iResp : Option GTCertTokenResponseM
  mallocFailed : Bool
  consistencyRes : Nat
  extendRes : Except Nat Nat
  newOk : Bool
  dupOk : Bool
  packOk : Bool
  packMallocFailed : Bool
  encodeSig : Nat → Nat
  updateTST : PKCS7M → Except Nat Nat
  updateSig : PKCS7M → Except Nat Nat

/-- The observable output cell `*extended_timestamp`. -/
structure ExtendWorld where
  extended_timestamp : Option GTTimestampM
deriving Repr, DecidableEq

/-- `GTTimestamp_createExtendedTimestamp` from gt_timestamp.c, as a function
of the input timestamp and the out-cell world.  Every fallible step works on
temporaries; the out-cell is written only on the all-success path, with a
timestamp built around `PKCS7_dup` of the input's token whose single
signer-info `enc_digest` is re-packed with the extended time signature and
whose certificate bag is dropped.  Returns the status code, the input
timestamp value as left by the call, and the world. -/
def GTTimestamp_createExtendedTimestamp (env : ExtendEnv) (timestamp : GTTimestampM)
    (args_ok : Bool) (w : ExtendWorld) : Nat × GTTimestampM × ExtendWorld :=
  if ¬args_ok then (GT_INVALID_ARGUMENT, timestamp, w)
  else
    match env.d2iResp with
    | none =>
      ((if env.mallocFailed then GT_OUT_OF_MEMORY else GT_INVALID_FORMAT), timestamp, w)
    | some resp =>
      if resp.statusRes ≠ GT_OK then (resp.statusRes, timestamp, w)
      else
        match resp.certToken with
        | none => (GT_INVALID_FORMAT, timestamp, w)
        | some ct =>
          if ct.version ≠ 1 then (GT_UNSUPPORTED_FORMAT, timestamp, w)
          else if ct.extRes ≠ GT_OK then (ct.extRes, timestamp, w)
          else if env.consistencyRes ≠ GT_OK then (env.consistencyRes, timestamp, w)
          else
            match env.extendRes with
            | .error e => (e, timestamp, w)
            | .ok extended_time_signature =>
              if ¬env.newOk then (GT_OUT_OF_MEMORY, timestamp, w)
              else if ¬env.dupOk then (GT_OUT_OF_MEMORY, timestamp, w)
              else if ¬env.packOk then
                ((if env.packMallocFailed then GT_OUT_OF_MEMORY else GT_CRYPTO_FAILURE),
                 timestamp, w)
              else
                let tok0 := PKCS7_dup timestamp.token
                let tok1 := { tok0 with
                  enc_digest := env.encodeSig extended_time_signature }
                let tok2 := { tok1 with certs := none }
                match env.updateTST tok2 with
                | .error e => (e, timestamp, w)
                | .ok tst =>
                  match env.updateSig tok2 with
                  | .error e => (e, timestamp, w)
                  | .ok sig =>
                    (GT_OK, timestamp,
                     { extended_timestamp := some
                        { token := tok2, tst_info := tst, time_signature := sig } })

/-! ## Concrete fixtures used by witnesses -/

/-- A verification environment in which every external sub-call succeeds
but the recovered history identifier (`2^31`) does not fit a 32-bit signed
`time_t`. -/
def verifyEnvOverflow : VerifyEnv :=
  { explicitRes := GT_OK, historyIdRes := .ok 2147483648, pubInfoRes := GT_OK,
    pkiInfoRes := GT_OK, syntaxRes := GT_OK, chainRes := GT_OK,
    certFound := true, pkRes := GT_OK }

/-- A verification environment in which the syntactic check, the hash-chain
check and the public-key signature check all fail (with downgradable
codes) while everything else succeeds. -/
def verifyEnvAllChecksFail : VerifyEnv :=
  { explicitRes := GT_OK, historyIdRes := .ok 5, pubInfoRes := GT_OK,
    pkiInfoRes := GT_OK, syntaxRes := GT_UNSUPPORTED_FORMAT,
    chainRes := GT_WRONG_SIGNED_DATA, certFound := true,
    pkRes := GT_INVALID_SIGNATURE }

/-- A timestamp view with a PKI signature, one publication reference and a
minimal well-formed location chain. -/
def pkTimestampView : GTTimestampView :=
  { pkSignaturePresent := true, pubReference := some 1,
    location := 0 :: 0 :: 1 :: (List.replicate 32 0 ++ [0xFF]) }

/-- An extension environment in which every external call succeeds. -/
def extendEnvAllOk : ExtendEnv where
  d2iResp := some { statusRes := GT_OK, certToken := some { version := 1, extRes := GT_OK } }
  mallocFailed := false
  consistencyRes := GT_OK
  extendRes := .ok 7
  newOk := true
  dupOk := true
  packOk := true
  packMallocFailed := false
  encodeSig := fun n => n + 1
  updateTST := fun t => .ok t.enc_digest
  updateSig := fun t => .ok t.body

/-- A short-term input timestamp for the extension fixture. -/
def extendInput : GTTimestampM :=
  { token := { body := 3, enc_digest := 4, certs := some 9 },
    tst_info := 1, time_signature := 2 }

/-! ## Theorems about the base32 codec -/

/-- The sentinel entries of `base32NumDecTable` (value 255, from the `-1`
initialisers narrowed to `unsigned char`) drive `addBits` exactly as the
value 31 does: the guard `bits < 0` never fires and every use of `bits`
masks it down to its five low bits. -/
theorem addBits_255_eq_31 (buf : List Nat) (bd : Nat) :
    addBits buf bd 255 = addBits buf bd 31 := by
  have h : bd % 8 = 0 ∨ bd % 8 = 1 ∨ bd % 8 = 2 ∨ bd % 8 = 3 ∨ bd % 8 = 4 ∨
      bd % 8 = 5 ∨ bd % 8 = 6 ∨ bd % 8 = 7 := by omega
  rcases h with h | h | h | h | h | h | h | h <;>
    simp [addBits, h, makeMask,
      (by decide : (255 &&& 31 : Nat) = 31), (by decide : (255 &&& 30 : Nat) = 30),
      (by decide : (31 &&& 30 : Nat) = 30), (by decide : (255 &&& 28 : Nat) = 28),
      (by decide : (31 &&& 28 : Nat) = 28), (by decide : (255 &&& 3 : Nat) = 3),
      (by decide : (31 &&& 3 : Nat) = 3), (by decide : (255 &&& 24 : Nat) = 24),
      (by decide : (31 &&& 24 : Nat) = 24), (by decide : (255 &&& 7 : Nat) = 7),
      (by decide : (31 &&& 7 : Nat) = 7), (by decide : (255 &&& 16 : Nat) = 16),
      (by decide : (31 &&& 16 : Nat) = 16), (by decide : (255 &&& 15 : Nat) = 15),
      (by decide : (31 &&& 15 : Nat) = 15)]

/-- C10: `GT_base32Decode` does not skip or reject the decimal digits
`0`, `1`, `8`, `9` (ASCII 48, 49, 56, 57): each behaves exactly like the
symbol `7` (ASCII 55, five-bit value 31), because the `-1` sentinels of
`base32NumDecTable` are stored as the unsigned byte 255, which never
triggers the `bits < 0` guard of `addBits`; every other character outside
`A`–`Z`, `a`–`z`, `2`–`7` and `=` is silently skipped, and `=` (ASCII 61)
terminates decoding. -/
theorem claim_C10_base32Decode_digit_sentinels :
    (∀ c, (c = 48 ∨ c = 49 ∨ c = 56 ∨ c = 57) → ∀ rest buf bd,
        base32DecodeLoop (c :: rest) buf bd = base32DecodeLoop (55 :: rest) buf bd)
    ∧ base32NumDecTable.getD 0 0 = 255 ∧ base32NumDecTable.getD 1 0 = 255
    ∧ base32NumDecTable.getD 8 0 = 255 ∧ base32NumDecTable.getD 9 0 = 255
    ∧ ¬((255 : Int) < 0)
    ∧ (∀ c rest buf bd, ¬c = 61 → ¬(48 ≤ c ∧ c ≤ 57) →
        ¬((65 ≤ c ∧ c ≤ 90) ∨ (97 ≤ c ∧ c ≤ 122)) →
        base32DecodeLoop (c :: rest) buf bd = base32DecodeLoop rest buf bd)
    ∧ (∀ rest buf bd, base32DecodeLoop (61 :: rest) buf bd = (buf, bd)) := by
  refine ⟨?_, by decide, by decide, by decide, by decide, by decide, ?_, ?_⟩
  · intro c hc rest buf bd
    rcases hc with h | h | h | h <;> subst h <;>
      simp [base32DecodeLoop, base32NumDecTable, addBits_255_eq_31]
  · intro c rest buf bd h61 hd hl
    simp [base32DecodeLoop, h61, hd, hl]
  · intro rest buf bd
    simp [base32DecodeLoop]

/-- Witness for C10 at concrete inputs: digit `0` decodes like `7`, `#`
(ASCII 35) is skipped, and `=` stops the loop. -/
theorem claim_C10_witness :
    base32DecodeLoop [48] [0, 0, 0] 0 = base32DecodeLoop [55] [0, 0, 0] 0 ∧
    base32DecodeLoop [35] [0] 2 = base32DecodeLoop [] [0] 2 ∧
    base32DecodeLoop [61, 65] [0] 3 = ([0], 3) :=
  ⟨claim_C10_base32Decode_digit_sentinels.1 48 (Or.inl rfl) [] [0, 0, 0] 0,
   claim_C10_base32Decode_digit_sentinels.2.2.2.2.2.2.1 35 [] [0] 2
     (by decide) (by decide) (by decide),
   claim_C10_base32Decode_digit_sentinels.2.2.2.2.2.2.2 [65] [0] 3⟩

/-! ## Theorems about the location decoder -/

/-- C2 counterexample: the location decoder accepts a chain whose single
step begins with the byte 0xAA — a value that is neither 0 nor 1 — because
the first byte of a step is not the direction byte (the decoder skips it
before reading the direction at offset 1).  Under the claimed layout
(direction first, then sibling algorithm, sibling imprint and level, with
no other bytes) this chain would be rejected. -/
theorem claim_C2_counterexample :
    extractLocation (0xAA :: 1 :: 1 :: (List.replicate 32 0 ++ [0xFF])) =
      .ok (0, { hasher := 1 })
    ∧ ((0xAA : Nat) ≠ 0 ∧ (0xAA : Nat) ≠ 1) :=
  ⟨rfl, by decide⟩

/-- The step layout scanned by `parseStep`: a leading byte, the direction
at offset 1, the sibling algorithm at offset 2, the digest-size sibling
imprint, then the level byte — `4 + digest-size` bytes in all. -/
theorem parseStep_layout (a d alg lvl : Nat) (sib rest : List Nat)
    (hd : d = 0 ∨ d = 1) (hsz : GT_getHashSize alg ≠ 0)
    (hlen : sib.length = GT_getHashSize alg) :
    parseStep (a :: d :: alg :: (sib ++ lvl :: rest)) =
      some ({ bytes := a :: d :: alg :: (sib ++ lvl :: rest), direction := d,
              sibAlg := alg, level := lvl, hashBit := 1 - d },
            rest) := by
  have hsplit : a :: d :: alg :: (sib ++ lvl :: rest) =
      ([a, d, alg] ++ sib) ++ (lvl :: rest) := by simp
  have hlen3 : ([a, d, alg] ++ sib).length = 3 + GT_getHashSize alg := by
    simp [hlen]; omega
  have hgetD : (a :: d :: alg :: (sib ++ lvl :: rest))[3 + GT_getHashSize alg]?.getD 0
      = lvl := by
    rw [← List.getD_eq_getElem?_getD, hsplit,
      List.getD_append_right _ _ _ _ (by rw [hlen3]), hlen3]
    simp
  have hdrop : (a :: d :: alg :: (sib ++ lvl :: rest)).drop (4 + GT_getHashSize alg)
      = rest := by
    have h2 : a :: d :: alg :: (sib ++ lvl :: rest) =
        ([a, d, alg] ++ sib ++ [lvl]) ++ rest := by simp
    rw [h2, List.drop_left' (by simp [hlen]; omega)]
  have hLtot : (a :: d :: alg :: (sib ++ lvl :: rest)).length =
      4 + GT_getHashSize alg + rest.length := by simp [hlen]; omega
  rcases hd with h | h <;> subst h <;>
    simp [parseStep, hLtot, hsz, hgetD, hdrop] <;> omega

/-- C2 amended: each step of a chain consumed by the location decoder
occupies consecutive bytes laid out as: one leading byte (the step's own
hash-algorithm id, skipped and not validated by the decoder), then the
direction (1 byte, 0 or 1), then the sibling-hash algorithm id (1 byte with
a known, non-zero digest size), then the sibling imprint of exactly
digest-size bytes, then the level (1 byte) — `4 + digest-size` bytes in
all, after which the next step begins. -/
theorem claim_C2_amended (a d alg lvl : Nat) (sib rest : List Nat)
    (hd : d = 0 ∨ d = 1) (hsz : GT_getHashSize alg ≠ 0)
    (hlen : sib.length = GT_getHashSize alg) :
    parseStep (a :: d :: alg :: (sib ++ lvl :: rest)) =
      some ({ bytes := a :: d :: alg :: (sib ++ lvl :: rest), direction := d,
              sibAlg := alg, level := lvl, hashBit := 1 - d },
            rest) :=
  parseStep_layout a d alg lvl sib rest hd hsz hlen

/-- Witness for the amended C2 layout at a concrete step whose leading byte
is 0xAA, direction 1, SHA-256 sibling, level 0xFF. -/
theorem claim_C2_witness :
    parseStep (0xAA :: 1 :: 1 :: (List.replicate 32 0 ++ [0xFF])) =
      some ({ bytes := 0xAA :: 1 :: 1 :: (List.replicate 32 0 ++ [0xFF]), direction := 1,
              sibAlg := 1, level := 0xFF, hashBit := 1 - 1 },
            []) :=
  claim_C2_amended 0xAA 1 1 0xFF (List.replicate 32 0) []
    (Or.inr rfl) (by decide) (by decide)

/-! ## Theorems about the hash-chain fold -/

/-- C1 counterexample: folding a single step whose direction byte is 0
places the previous imprint on the RIGHT of the concatenation (the sibling
imprint on the left), so the fold disagrees with the claim-worded variant
(previous imprint on the left for direction 0) already at this one-step
chain, using the record-the-input digest `fun _ data => data`. -/
theorem claim_C1_counterexample :
    GT_hashChainCalculate (fun _ data => data)
        (2 :: 0 :: 0 :: (List.replicate 20 7 ++ [5])) [9] 25 =
      .ok (2 :: ((0 :: List.replicate 20 7) ++ [9]))
    ∧ GT_hashChainCalculateClaim (fun _ data => data)
        (2 :: 0 :: 0 :: (List.replicate 20 7 ++ [5])) [9] 25 =
      .ok (2 :: ([9] ++ (0 :: List.replicate 20 7)))
    ∧ (2 :: ((0 :: List.replicate 20 7) ++ [9]) : List Nat) ≠
        2 :: ([9] ++ (0 :: List.replicate 20 7)) :=
  ⟨rfl, rfl, by decide⟩

/-- C1 amended: for every hash-chain step, the fold hashes the
concatenation `left ++ right` in which the previous step's imprint is
placed on the RIGHT when the step's direction byte is 0 and on the LEFT
when it is 1, with the sibling imprint occupying the other position
(`gtHashStepConcat`, per the `GTHashEntry` documentation in gt_base.h). -/
theorem claim_C1_amended (hash : Nat → List Nat → List Nat) (a d salg lvl : Nat)
    (sib prev : List Nat) (hd : d = 0 ∨ d = 1) (hsz : GT_getHashSize salg ≠ 0)
    (hlen : sib.length = GT_getHashSize salg) :
    GT_hashChainCalculate hash (a :: d :: salg :: (sib ++ [lvl])) prev 2 =
      .ok (a :: hash a (gtHashStepConcat d prev (salg :: sib)))
    ∧ (∀ p s : List Nat, gtHashStepConcat 0 p s = s ++ p ∧
        gtHashStepConcat 1 p s = p ++ s) := by
  constructor
  · have hp := parseStep_layout a d salg lvl sib [] hd hsz hlen
    have hsib : (sib ++ [lvl]).take (GT_getHashSize salg) = sib := by
      rw [← hlen, List.take_left]
    simp [GT_hashChainCalculate, hp, hsib]
  · intro p s
    simp [gtHashStepConcat]

/-- Witness for the amended C1 at a concrete direction-0 step with the
record-the-input digest. -/
theorem claim_C1_witness :
    GT_hashChainCalculate (fun _ data => data)
        (2 :: 0 :: 0 :: (List.replicate 20 7 ++ [5])) [9] 2 =
      .ok (2 :: gtHashStepConcat 0 [9] (0 :: List.replicate 20 7))
    ∧ (∀ p s : List Nat, gtHashStepConcat 0 p s = s ++ p ∧
        gtHashStepConcat 1 p s = p ++ s) :=
  claim_C1_amended (fun _ data => data) 2 0 0 5 (List.replicate 20 7) [9]
    (Or.inl rfl) (by decide) (by decide)

/-- C4 counterexample: at the top-to-hasher boundary with level byte 0xFF
and direction 0, the decoder extracts `hasher = 1 + hash_bit = 1 + (1 - 0)
= 2`, not the claimed `1 + direction = 1`. -/
theorem claim_C4_counterexample :
    extractLocation (0 :: 0 :: 1 :: (List.replicate 32 0 ++ [0xFF])) =
      .ok (0, { hasher := 2 })
    ∧ 1 + 0 ≠ 2 :=
  ⟨rfl, by decide⟩

/-- C4 amended: when the location decoder reaches the top-to-hasher
boundary (level > 80 while the previous level was at most 80), the hasher
id equals `1 + (1 - direction)` — that is, `2 - direction` — if the level
byte is 0xFF, and `level - 80` otherwise. -/
theorem claim_C4_amended (d : Nat) (hd : d = 0 ∨ d = 1) :
    extractLocation (0 :: d :: 1 :: (List.replicate 32 0 ++ [0xFF])) =
      .ok (0, { hasher := 1 + (1 - d) })
    ∧ extractLocation (0 :: d :: 1 :: (List.replicate 32 0 ++ [100])) =
      .ok (0, { hasher := 100 - 80 }) := by
  rcases hd with h | h <;> subst h <;> exact ⟨rfl, rfl⟩

/-- Witness for the amended C4 at direction 0: hasher 2 on level 0xFF and
hasher 20 on level 100. -/
theorem claim_C4_witness :
    extractLocation (0 :: 0 :: 1 :: (List.replicate 32 0 ++ [0xFF])) =
      .ok (0, { hasher := 1 + (1 - 0) })
    ∧ extractLocation (0 :: 0 :: 1 :: (List.replicate 32 0 ++ [100])) =
      .ok (0, { hasher := 100 - 80 }) :=
  claim_C4_amended 0 (Or.inl rfl)

/-- C5 counterexample: on a chain whose middle step has level exactly 22,
the source decoder (threshold `state_level = 21`) fires the local-to-state
transition there — consuming the pending bit into `local_machine` and
leaving `national_cluster = 1` — while the decoder built from the claim's
threshold 22 does not fire, so the two disagree on the final location id
(`1 <<< 48` versus `3 <<< 48`). -/
theorem claim_C5_counterexample :
    extractLocation
        (([0, 0, 0] ++ (List.replicate 20 0 ++ [1])) ++
          (([0, 0, 0] ++ (List.replicate 20 0 ++ [22])) ++
           ([0, 1, 1] ++ (List.replicate 32 0 ++ [255])))) =
      .ok (281474976710656, { hasher := 1, national_cluster := 1, local_machine := 1 })
    ∧ extractLocationStateLevel22
        (([0, 0, 0] ++ (List.replicate 20 0 ++ [1])) ++
          (([0, 0, 0] ++ (List.replicate 20 0 ++ [22])) ++
           ([0, 1, 1] ++ (List.replicate 32 0 ++ [255])))) =
      .ok (844424930131968, { hasher := 1, national_cluster := 3 })
    ∧ (281474976710656 : Nat) ≠ 844424930131968 :=
  ⟨rfl, rfl, by decide⟩

/-- C5 amended: the local-to-state transition (extracting `local_machine`
from `ab_bits_state = 2` bits, `local_slot` from `slot_bits_state = 2`
bits, an optional `local_name`, then `client_id` from the remaining bits)
fires exactly when a step's level first exceeds the threshold
`state_level = gdepth_state + slot_bits_state + ab_bits_state - 2 = 21`
(that is, level ≥ 22) while the previous level was at most 21; in
particular it fires at a step of level exactly 22, as on the concrete
chain below. -/
theorem claim_C5_amended :
    state_level = gdepth_state + (slot_bits_state + ab_bits_state) - 2
    ∧ state_level = 21
    ∧ (∀ (lvl : Nat) (last : Int), levelCrossing state_level lvl last = true ↔
        (22 ≤ lvl ∧ last ≤ 21))
    ∧ (extractLocation
        (([0, 0, 0] ++ (List.replicate 20 0 ++ [1])) ++
          (([0, 0, 0] ++ (List.replicate 20 0 ++ [22])) ++
           ([0, 1, 1] ++ (List.replicate 32 0 ++ [255]))))).toOption.map
        (fun r => r.2.local_machine) = some 1 := by
  refine ⟨rfl, rfl, ?_, rfl⟩
  intro lvl last
  simp only [levelCrossing, Bool.and_eq_true, decide_eq_true_eq]
  constructor
  · rintro ⟨h1, h2⟩
    constructor <;> [exact_mod_cast h1; exact_mod_cast h2]
  · rintro ⟨h1, h2⟩
    constructor <;> [exact_mod_cast h1; exact_mod_cast h2]

/-- Witness for the amended C5: the crossing predicate fires at level 22
after a previous level of 1. -/
theorem claim_C5_witness :
    levelCrossing state_level 22 1 = true :=
  (claim_C5_amended.2.2.1 22 1).mpr (by constructor <;> decide)

/-- The padding scan accepts from offset `i` exactly when every sibling
byte from offset `i` up to 27 is zero. -/
theorem checkNamePadGo_eq_true_iff (step : List Nat) (k : Nat) :
    ∀ i, checkNamePadGo step i k = true ↔
      ∀ j, i ≤ j → j < i + k → step.getD (3 + j) 0 = 0 := by
  induction k with
  | zero =>
    intro i
    simp only [checkNamePadGo]
    constructor
    · intro _ j h1 h2; omega
    · intro _; trivial
  | succ k ih =>
    intro i
    by_cases h : step.getD (3 + i) 0 = 0
    · simp only [checkNamePadGo, h, ne_eq, not_true_eq_false, if_false]
      rw [ih (i + 1)]
      constructor
      · intro hall j hj1 hj2
        rcases Nat.eq_or_lt_of_le hj1 with he | hl
        · rw [← he]; exact h
        · exact hall j hl (by omega)
      · intro hall j hj1 hj2
        exact hall j (by omega) (by omega)
    · simp only [checkNamePadGo, h, ne_eq, not_false_eq_true, if_true]
      constructor
      · intro hfalse; cases hfalse
      · intro hall; exact absurd (hall i le_rfl (by omega)) h

/-- `checkNamePad step i` holds exactly when the sibling bytes at offsets
`i … 27` are all zero. -/
theorem checkNamePad_eq_true_iff (step : List Nat) (i : Nat) :
    checkNamePad step i = true ↔ ∀ j, i ≤ j → j < 28 → step.getD (3 + j) 0 = 0 := by
  unfold checkNamePad
  rw [show GT_getHashSize GT_HASHALG_SHA224 = 28 from rfl, checkNamePadGo_eq_true_iff]
  constructor
  · intro hall j h1 h2
    exact hall j h1 (by omega)
  · intro hall j h1 h2
    exact hall j h1 (by omega)

/-- C6: `checkName` consumes the most recent unconsumed step
(`steps (len - 1)`) as an embedded name tag — popping it and yielding the
sibling bytes `[2, 2+L)` (step offsets `[5, 5+L)`) as the node name — if
and only if the step's direction byte is 1, its sibling algorithm is
SHA-224, the first sibling byte is 0x00, the second sibling byte is a
length `L` with `2 + L ≤ 28`, and all sibling bytes from offset `2 + L` to
27 are zero; in every other case the step stack is left untouched and no
name is produced. -/
theorem claim_C6_checkName (steps : Nat → List Nat) (len : Nat) (hlen : 0 < len) :
    (checkName steps len =
        (len - 1, some (((steps (len - 1)).drop 5).take ((steps (len - 1)).getD 4 0)))
      ↔ ((steps (len - 1)).getD 1 0 = 1 ∧
         (steps (len - 1)).getD 2 0 = GT_HASHALG_SHA224 ∧
         (steps (len - 1)).getD 3 0 = 0 ∧
         2 + (steps (len - 1)).getD 4 0 ≤ 28 ∧
         ∀ j, 2 + (steps (len - 1)).getD 4 0 ≤ j → j < 28 →
           (steps (len - 1)).getD (3 + j) 0 = 0))
    ∧ (checkName steps len = (len, none) ∨
       checkName steps len =
        (len - 1, some (((steps (len - 1)).drop 5).take ((steps (len - 1)).getD 4 0)))) := by
  have hne : ¬(len = 0) := by omega
  unfold checkName
  simp only [hne, if_false]
  split_ifs with h1 h2 h3 h4 h5
  · refine ⟨⟨fun he => ?_, fun hc => absurd hc.1 h1⟩, Or.inl rfl⟩
    exact absurd (congrArg Prod.snd he) (by simp)
  · refine ⟨⟨fun he => ?_, fun hc => absurd hc.2.1 h2⟩, Or.inl rfl⟩
    exact absurd (congrArg Prod.snd he) (by simp)
  · refine ⟨⟨fun he => ?_, fun hc => absurd hc.2.2.1 h3⟩, Or.inl rfl⟩
    exact absurd (congrArg Prod.snd he) (by simp)
  · refine ⟨⟨fun he => ?_, fun hc => ?_⟩, Or.inl rfl⟩
    · exact absurd (congrArg Prod.snd he) (by simp)
    · have := hc.2.2.2.1
      rw [show GT_getHashSize GT_HASHALG_SHA224 = 28 from rfl] at h4
      omega
  · refine ⟨⟨fun _ => ?_, fun _ => rfl⟩, Or.inr rfl⟩
    have hpad := (checkNamePad_eq_true_iff (steps (len - 1))
      (2 + (steps (len - 1)).getD 4 0)).mp h5
    rw [show GT_getHashSize GT_HASHALG_SHA224 = 28 from rfl] at h4
    exact ⟨by omega, by omega, by omega, by omega, hpad⟩
  · refine ⟨⟨fun he => ?_, fun hc => ?_⟩, Or.inl rfl⟩
    · exact absurd (congrArg Prod.snd he) (by simp)
    · exact absurd ((checkNamePad_eq_true_iff _ _).mpr hc.2.2.2.2) h5

/-- Witness for C6: a step `[7, 1, 3, 0, 2, 65, 66, 0 … 0, 9]` (junk
algorithm byte, direction 1, SHA-224 sibling, tag 0, length 2, name `AB`,
zero padding, level 9) is consumed and yields the name bytes `[65, 66]`. -/
theorem claim_C6_witness :
    checkName (fun _ => [7, 1, 3, 0, 2, 65, 66] ++ (List.replicate 24 0 ++ [9])) 1 =
      (0, some [65, 66]) := by
  have hcond : ([7, 1, 3, 0, 2, 65, 66] ++ (List.replicate 24 0 ++ [9])).getD 1 0 = 1 ∧
      ([7, 1, 3, 0, 2, 65, 66] ++ (List.replicate 24 0 ++ [9])).getD 2 0 = GT_HASHALG_SHA224 ∧
      ([7, 1, 3, 0, 2, 65, 66] ++ (List.replicate 24 0 ++ [9])).getD 3 0 = 0 ∧
      2 + ([7, 1, 3, 0, 2, 65, 66] ++ (List.replicate 24 0 ++ [9])).getD 4 0 ≤ 28 ∧
      ∀ j, 2 + ([7, 1, 3, 0, 2, 65, 66] ++ (List.replicate 24 0 ++ [9])).getD 4 0 ≤ j →
        j < 28 →
        ([7, 1, 3, 0, 2, 65, 66] ++ (List.replicate 24 0 ++ [9])).getD (3 + j) 0 = 0 := by
    refine ⟨by decide, by decide, by decide, by decide, ?_⟩
    intro j h1 h2
    have hg : ([7, 1, 3, 0, 2, 65, 66] ++ (List.replicate 24 0 ++ [9])).getD 4 0 = 2 := by
      decide
    rw [hg] at h1
    interval_cases j <;> decide
  have h := (claim_C6_checkName
    (fun _ => [7, 1, 3, 0, 2, 65, 66] ++ (List.replicate 24 0 ++ [9])) 1
    (by norm_num)).1.mpr hcond
  exact h.trans (by rfl)

/-- C9: with `group_len = 0` the grouping condition
`ret_len % (group_len + 1) == group_len` of `GT_base32Encode` degenerates to
`ret_len % 1 == 0`, which always holds, so the output of encoding the single
byte `0x00` is `A-A=-=-=-=-==` — it contains six dash separators (ASCII 45)
even though the claim requires none — and its length (plus the terminating
NUL) exceeds the `base32BufLen 1 0 = 9` bytes the function allocates, because
the allocation reserves dash room only when `group_len > 0`. -/
theorem claim_C9_base32Encode_group0_dashes :
    GT_base32Encode [0] 0 = [65, 45, 65, 61, 45, 61, 45, 61, 45, 61, 45, 61, 45, 61]
    ∧ (GT_base32Encode [0] 0).count 45 = 6
    ∧ base32BufLen 1 0 = 9
    ∧ (GT_base32Encode [0] 0).length + 1 = 15 := by decide

/-! ## Theorems about the verification orchestrator -/

/-- Any `GT_UInt64` of at least `2^31` fails the source's 32-bit `time_t`
round-trip test. -/
theorem timeTOverflow32_of_ge (hi : Nat) (h : 2147483648 ≤ hi) :
    timeTOverflow32 hi = true := by
  simp only [timeTOverflow32, timeT32, timeT32RoundTrip, Bool.or_eq_true, decide_eq_true_eq]
  by_cases hm : hi % 4294967296 < 2147483648
  · right
    simp only [hm, if_true]
    omega
  · left
    simp only [hm, if_false]
    omega

/-- Every error exit of the location-decoder loop carries
`GT_INVALID_LINKING_INFO`. -/
theorem extLoop_error_eq (fuel : Nat) :
    ∀ (steps : Nat → List Nat) (bits : Nat → Nat) (n : Nat) (last : Int)
      (loc : LocationInfo) (remaining : List Nat) (e : Nat),
      extLoop steps bits n last loc remaining fuel = .error e →
      e = GT_INVALID_LINKING_INFO := by
  induction fuel with
  | zero =>
    intro steps bits n last loc remaining e h
    simp only [extLoop] at h
    injection h with h2
    exact h2.symm
  | succ fuel ih =>
    intro steps bits n last loc remaining e h
    simp only [extLoop] at h
    rcases hp : parseStep remaining with _ | st
    · rw [hp] at h
      injection h with h2
      exact h2.symm
    · rw [hp] at h
      by_cases hc : levelCrossing hasher st.1.level last = true
      · simp only [hc, if_true] at h
        cases h
      · simp only [hc, if_false] at h
        exact ih _ _ _ _ _ _ _ h

/-- `extractLocation` fails only with `GT_INVALID_LINKING_INFO`. -/
theorem extractLocation_error_eq (chain : List Nat) (e : Nat)
    (h : extractLocation chain = .error e) : e = GT_INVALID_LINKING_INFO := by
  unfold extractLocation at h
  rcases hl : extLoop (fun _ => []) (fun _ => 0) 0 (-1) {} chain (chain.length + 1) with e2 | loc
  · rw [hl] at h
    cases h
    exact extLoop_error_eq _ _ _ _ _ _ _ _ hl
  · rw [hl] at h
    cases h

/-- C7: on a build whose `time_t` is 32 bits (`sizeof_time_t = 4`), a
registration time of at least `2^31` recovered from the history-chain
shape does not abort verification-info creation: the function still
returns `GT_OK` with a populated structure whose `verification_errors`
carries the `GT_SYNTACTIC_CHECK_FAILURE` flag and whose implicit
`registered_time` is 0. -/
theorem claim_C7_registered_time_overflow32 (env : VerifyEnv) (ts : GTTimestampView)
    (hi : Nat) (hhist : env.historyIdRes = .ok hi) (hbig : 2147483648 ≤ hi)
    (hpub : env.pubInfoRes = GT_OK) (hpki : env.pkiInfoRes = GT_OK) :
    ∃ info, createVerificationInfo env ts false 4 = .ok info ∧
      info.registered_time = 0 ∧
      info.verification_errors &&& GT_SYNTACTIC_CHECK_FAILURE =
        GT_SYNTACTIC_CHECK_FAILURE := by
  unfold createVerificationInfo
  rw [hhist]
  simp only [timeTOverflow32_of_ge hi hbig, false_and, if_false, and_true,
    Nat.lt_irrefl, if_true, Bool.false_eq_true, ite_false, ite_true]
  norm_num
  unfold createVerificationInfoTail
  rcases hl : extractLocation ts.location with e | r
  · have he := extractLocation_error_eq _ _ hl
    subst he
    simp only [if_pos rfl, ite_true]
    by_cases hst : (if ts.pkSignaturePresent then GT_PUBLIC_KEY_SIGNATURE_PRESENT else 0) |||
        (match ts.pubReference with
         | some n => if 0 < n then GT_PUBLICATION_REFERENCE_PRESENT else 0
         | none => 0) &&& GT_PUBLIC_KEY_SIGNATURE_PRESENT = 0
    · simp [hpub, hpki, GT_OK, GT_SYNTACTIC_CHECK_FAILURE]
    · simp [hpub, hpki, GT_OK, GT_SYNTACTIC_CHECK_FAILURE]
  · simp [hpub, hpki, GT_OK, GT_SYNTACTIC_CHECK_FAILURE]

/-- Witness for C7 at the concrete overflow fixture. -/
theorem claim_C7_witness :
    ∃ info, createVerificationInfo verifyEnvOverflow pkTimestampView false 4 = .ok info ∧
      info.registered_time = 0 ∧
      info.verification_errors &&& GT_SYNTACTIC_CHECK_FAILURE =
        GT_SYNTACTIC_CHECK_FAILURE :=
  claim_C7_registered_time_overflow32 verifyEnvOverflow pkTimestampView
    2147483648 rfl (by norm_num) rfl rfl

/-- C3: once `createVerificationInfo` has produced an info structure,
`GTTimestamp_verify` runs all three sub-checks without short-circuiting and
returns `GT_OK` with one flag accumulated per failed sub-check — any
non-`GT_OK` syntactic result adds `GT_SYNTACTIC_CHECK_FAILURE`, a
hash-chain result in the downgrade list (`GT_INVALID_FORMAT`,
`GT_UNTRUSTED_HASH_ALGORITHM`, `GT_WRONG_SIGNED_DATA`,
`GT_INVALID_AGGREGATION`) adds `GT_HASHCHAIN_VERIFICATION_FAILURE`, and a
public-key result in its downgrade list adds
`GT_PUBLIC_KEY_SIGNATURE_FAILURE` — while a sub-check result outside the
downgrade lists (for example `GT_OUT_OF_MEMORY` or `GT_CRYPTO_FAILURE`)
makes the function return that code with no verification info, as does a
failure of `createVerificationInfo` itself. -/
theorem claim_C3_verify_flags (env : VerifyEnv) (ts : GTTimestampView)
    (parse_data : Bool) (szt : Nat) :
    (∀ e, createVerificationInfo env ts parse_data szt = .error e →
        GTTimestamp_verify env ts parse_data szt = .error e)
    ∧ ∀ info0, createVerificationInfo env ts parse_data szt = .ok info0 →
      (((env.chainRes = GT_OK ∨ checkHashChainFailureCode env.chainRes = true) →
        (ts.pkSignaturePresent = false ∨ pkEffective env = GT_OK ∨
          checkPublicKeyFailureCode (pkEffective env) = true) →
        GTTimestamp_verify env ts parse_data szt = .ok { info0 with verification_errors :=
          info0.verification_errors
          ||| (if env.syntaxRes ≠ GT_OK then GT_SYNTACTIC_CHECK_FAILURE else 0)
          ||| (if checkHashChainFailureCode env.chainRes then
                GT_HASHCHAIN_VERIFICATION_FAILURE else 0)
          ||| (if ts.pkSignaturePresent = true ∧
                  checkPublicKeyFailureCode (pkEffective env) = true then
                GT_PUBLIC_KEY_SIGNATURE_FAILURE else 0) })
      ∧ (env.chainRes ≠ GT_OK → checkHashChainFailureCode env.chainRes = false →
          GTTimestamp_verify env ts parse_data szt = .error env.chainRes)
      ∧ ((env.chainRes = GT_OK ∨ checkHashChainFailureCode env.chainRes = true) →
          ts.pkSignaturePresent = true → pkEffective env ≠ GT_OK →
          checkPublicKeyFailureCode (pkEffective env) = false →
          GTTimestamp_verify env ts parse_data szt = .error (pkEffective env))) := by
  have hchne : ∀ r : Nat, checkHashChainFailureCode r = true → ¬(r = GT_OK) := by
    intro r hr
    simp only [checkHashChainFailureCode, Bool.or_eq_true, beq_iff_eq, GT_INVALID_FORMAT,
      GT_UNTRUSTED_HASH_ALGORITHM, GT_WRONG_SIGNED_DATA, GT_INVALID_AGGREGATION, GT_OK] at hr ⊢
    omega
  have hpkne : ∀ r : Nat, checkPublicKeyFailureCode r = true → ¬(r = GT_OK) := by
    intro r hr
    simp only [checkPublicKeyFailureCode, Bool.or_eq_true, beq_iff_eq, GT_INVALID_FORMAT,
      GT_UNTRUSTED_HASH_ALGORITHM, GT_UNTRUSTED_SIGNATURE_ALGORITHM, GT_WRONG_SIGNED_DATA,
      GT_INVALID_SIGNATURE, GT_OK] at hr ⊢
    omega
  have hch0 : checkHashChainFailureCode GT_OK = false := by decide
  have hpk0 : checkPublicKeyFailureCode GT_OK = false := by decide
  constructor
  · intro e he
    unfold GTTimestamp_verify
    rw [he]
  · intro info0 h0
    refine ⟨?_, ?_, ?_⟩
    · intro hch hpk
      unfold GTTimestamp_verify
      rw [h0]
      rcases hch with hch | hch
      · by_cases hpp : ts.pkSignaturePresent
        · rcases hpk with hpk | hpk | hpk
          · simp_all
          · by_cases hsyn : env.syntaxRes = GT_OK <;> simp_all [hch0, hpk0]
          · have hne := hpkne _ hpk
            by_cases hsyn : env.syntaxRes = GT_OK <;> simp_all [hch0, hpk0]
        · by_cases hsyn : env.syntaxRes = GT_OK <;> simp_all [hch0, hpk0]
      · have hcne := hchne _ hch
        by_cases hpp : ts.pkSignaturePresent
        · rcases hpk with hpk | hpk | hpk
          · simp_all
          · by_cases hsyn : env.syntaxRes = GT_OK <;> simp_all [hch0, hpk0]
          · have hne := hpkne _ hpk
            by_cases hsyn : env.syntaxRes = GT_OK <;> simp_all [hch0, hpk0]
        · by_cases hsyn : env.syntaxRes = GT_OK <;> simp_all [hch0, hpk0]
    · intro hch hcf
      unfold GTTimestamp_verify
      rw [h0]
      simp_all
    · intro hch hpkpres hpknz hpkf
      unfold GTTimestamp_verify
      rw [h0]
      rcases hch with hch | hch
      · simp_all
      · have hcne := hchne _ hch
        simp_all

/-- Witness for C3: with the syntactic check failing
(`GT_UNSUPPORTED_FORMAT`), the hash-chain check failing
(`GT_WRONG_SIGNED_DATA`) and the public-key check failing
(`GT_INVALID_SIGNATURE`), verification still returns `GT_OK` and reports
all three flags (1 + 2 + 16 = 19). -/
theorem claim_C3_witness :
    GTTimestamp_verify verifyEnvAllChecksFail pkTimestampView false 8 =
      .ok { verification_errors := 19, verification_status := 3,
            registered_time := 5, location_id := 0 } := by
  have h := ((claim_C3_verify_flags verifyEnvAllChecksFail pkTimestampView false 8).2
      { verification_errors := 0, verification_status := 3,
        registered_time := 5, location_id := 0 }
      rfl).1 (Or.inr (by decide)) (Or.inr (Or.inr (by decide)))
  rw [h]
  rfl

/-! ## Theorems about the extension engine -/

/-- C8: `GTTimestamp_createExtendedTimestamp` is transactional.  Provided
the external helpers report failures with non-`GT_OK` codes, then: the
input timestamp value passes through the call untouched; whenever the
result code is not `GT_OK` the out-cell `*extended_timestamp` is exactly as
before the call; and whenever the result is `GT_OK` the out-cell holds a
newly constructed timestamp whose token is `PKCS7_dup` of the input's
token with the signer-info `enc_digest` re-packed from the extended time
signature and the certificate bag dropped, together with its two freshly
decoded projections. -/
theorem claim_C8_extend_transactional (env : ExtendEnv) (timestamp : GTTimestampM)
    (args_ok : Bool) (w : ExtendWorld)
    (hwf1 : ∀ e, env.extendRes = .error e → e ≠ GT_OK)
    (hwf2 : ∀ t e, env.updateTST t = .error e → e ≠ GT_OK)
    (hwf3 : ∀ t e, env.updateSig t = .error e → e ≠ GT_OK) :
    (GTTimestamp_createExtendedTimestamp env timestamp args_ok w).2.1 = timestamp
    ∧ ((GTTimestamp_createExtendedTimestamp env timestamp args_ok w).1 ≠ GT_OK →
        (GTTimestamp_createExtendedTimestamp env timestamp args_ok w).2.2 = w)
    ∧ ((GTTimestamp_createExtendedTimestamp env timestamp args_ok w).1 = GT_OK →
        ∃ resp ct sig tst tsig,
          env.d2iResp = some resp ∧ resp.certToken = some ct ∧
          env.extendRes = .ok sig ∧
          env.updateTST { PKCS7_dup timestamp.token with
            enc_digest := env.encodeSig sig, certs := none } = .ok tst ∧
          env.updateSig { PKCS7_dup timestamp.token with
            enc_digest := env.encodeSig sig, certs := none } = .ok tsig ∧
          (GTTimestamp_createExtendedTimestamp env timestamp args_ok w).2.2.extended_timestamp
            = some { token := { PKCS7_dup timestamp.token with
                       enc_digest := env.encodeSig sig, certs := none },
                     tst_info := tst, time_signature := tsig }) := by
  by_cases ha : args_ok
  · rcases hresp : env.d2iResp with _ | resp
    · by_cases hm : env.mallocFailed <;>
        simp [GTTimestamp_createExtendedTimestamp, ha, hresp, hm, GT_OUT_OF_MEMORY,
          GT_INVALID_FORMAT, GT_OK]
    · by_cases hs : resp.statusRes = GT_OK
      · rcases hct : resp.certToken with _ | ct
        · simp [GTTimestamp_createExtendedTimestamp, ha, hresp, hs, hct,
            GT_INVALID_FORMAT, GT_OK]
        · by_cases hv : ct.version = 1
          · by_cases hex : ct.extRes = GT_OK
            · by_cases hcons : env.consistencyRes = GT_OK
              · rcases hexr : env.extendRes with e | sig
                · have hne := hwf1 e hexr
                  simp [GTTimestamp_createExtendedTimestamp, ha, hresp, hs, hct, hv,
                    hex, hcons, hexr, hne]
                · by_cases hnew : env.newOk
                  · by_cases hdup : env.dupOk
                    · by_cases hpack : env.packOk
                      · rcases hutst : env.updateTST
                            ⟨timestamp.token.body, env.encodeSig sig, none⟩ with e | tst
                        · have hne := hwf2 _ e hutst
                          simp [GTTimestamp_createExtendedTimestamp, ha, hresp, hs, hct,
                            hv, hex, hcons, hexr, hnew, hdup, hpack, PKCS7_dup, hutst, hne]
                        · rcases husig : env.updateSig
                              ⟨timestamp.token.body, env.encodeSig sig, none⟩ with e | tsig
                          · have hne := hwf3 _ e husig
                            simp [GTTimestamp_createExtendedTimestamp, ha, hresp, hs, hct,
                              hv, hex, hcons, hexr, hnew, hdup, hpack, PKCS7_dup,
                              hutst, husig, hne]
                          · refine ⟨?_, ?_, ?_⟩
                            · simp [GTTimestamp_createExtendedTimestamp, ha, hresp, hs,
                                hct, hv, hex, hcons, hexr, hnew, hdup, hpack, PKCS7_dup,
                                hutst, husig]
                            · intro hc
                              exact absurd (by
                                simp [GTTimestamp_createExtendedTimestamp, ha, hresp, hs,
                                  hct, hv, hex, hcons, hexr, hnew, hdup, hpack, PKCS7_dup,
                                  hutst, husig]) hc
                            · intro _
                              refine ⟨resp, ct, sig, tst, tsig, rfl, hct, rfl, ?_, ?_, ?_⟩
                              · simpa [PKCS7_dup] using hutst
                              · simpa [PKCS7_dup] using husig
                              · simp [GTTimestamp_createExtendedTimestamp, ha, hresp, hs,
                                  hct, hv, hex, hcons, hexr, hnew, hdup, hpack, PKCS7_dup,
                                  hutst, husig]
                      · by_cases hpmf : env.packMallocFailed <;>
                          simp [GTTimestamp_createExtendedTimestamp, ha, hresp, hs, hct,
                            hv, hex, hcons, hexr, hnew, hdup, hpack, hpmf,
                            GT_OUT_OF_MEMORY, GT_CRYPTO_FAILURE, GT_OK]
                    · simp [GTTimestamp_createExtendedTimestamp, ha, hresp, hs, hct, hv,
                        hex, hcons, hexr, hnew, hdup, GT_OUT_OF_MEMORY, GT_OK]
                  · simp [GTTimestamp_createExtendedTimestamp, ha, hresp, hs, hct, hv,
                      hex, hcons, hexr, hnew, GT_OUT_OF_MEMORY, GT_OK]
              · simp [GTTimestamp_createExtendedTimestamp, ha, hresp, hs, hct, hv, hex,
                  hcons]
            · simp [GTTimestamp_createExtendedTimestamp, ha, hresp, hs, hct, hv, hex]
          · simp [GTTimestamp_createExtendedTimestamp, ha, hresp, hs, hct, hv,
              GT_UNSUPPORTED_FORMAT, GT_OK]
      · simp [GTTimestamp_createExtendedTimestamp, ha, hresp, hs]
  · simp [GTTimestamp_createExtendedTimestamp, ha, GT_INVALID_ARGUMENT, GT_OK]

/-- Witness for C8 at the all-success fixture: the call returns the input
unchanged and stores the spliced timestamp. -/
theorem claim_C8_witness :
    ∃ resp ct sig tst tsig,
      extendEnvAllOk.d2iResp = some resp ∧ resp.certToken = some ct ∧
      extendEnvAllOk.extendRes = .ok sig ∧
      extendEnvAllOk.updateTST { PKCS7_dup extendInput.token with
        enc_digest := extendEnvAllOk.encodeSig sig, certs := none } = .ok tst ∧
      extendEnvAllOk.updateSig { PKCS7_dup extendInput.token with
        enc_digest := extendEnvAllOk.encodeSig sig, certs := none } = .ok tsig ∧
      (GTTimestamp_createExtendedTimestamp extendEnvAllOk extendInput true
          { extended_timestamp := none }).2.2.extended_timestamp
        = some { token := { PKCS7_dup extendInput.token with
                   enc_digest := extendEnvAllOk.encodeSig sig, certs := none },
                 tst_info := tst, time_signature := tsig } :=
  (claim_C8_extend_transactional extendEnvAllOk extendInput true
    { extended_timestamp := none }
    (fun e h => by simp [extendEnvAllOk] at h)
    (fun t e h => by simp [extendEnvAllOk] at h)
    (fun t e h => by simp [extendEnvAllOk] at h)).2.2 rfl

end GT
